import Mathlib

/-!
Shallow embedding of the chat application in `src/Streamlit_appGemini.py`.

The program keeps an ordered list of chat messages (Python dicts of the form
`\x7b"role": r, "parts": [\x7b"text": t\x7d]\x7d`) in session state.  On each
user prompt it appends the user message, builds a wire payload from the whole
list, performs one HTTP POST, and appends exactly one reply message computed
from the outcome (success, HTTP error, transport failure, JSON decode failure,
shape mismatch, or any other exception).

Parsed JSON bodies are modelled by the inductive `Json`; the Python operations
used at lines 72-83 of the source (truthiness, the `in` operator, `len`,
subscripting) are modelled by the `py*` functions below, returning
`Except String` where the Python operation can raise (the carried string models
the exception text that the generic `except Exception` handler interpolates).
-/

set_option autoImplicit false

namespace GeminiChat

/-- Values produced by parsing a JSON document (the result of `response.json()`).
JSON numbers are modelled as integers; no claim involves non-integral numbers. -/
inductive Json where
  | null
  | bool (b : Bool)
  | num (n : Int)
  | str (s : String)
  | arr (elems : List Json)
  | obj (fields : List (String × Json))

/-- Whether a JSON value is a string. -/
def Json.isString : Json → Bool
  | .str _ => true
  | _ => false

/-- Python truthiness of a parsed JSON value (`if result and ...`, line 73). -/
def pyTruthy : Json → Bool
  | .null => false
  | .bool b => b
  | .num n => n != 0
  | .str s => !s.isEmpty
  | .arr elems => !elems.isEmpty
  | .obj fields => !fields.isEmpty

/-- First binding for a key in a parsed JSON object (Python dict lookup;
dicts produced by `json.loads` have unique keys). -/
def lookupKey (k : String) : List (String × Json) → Option Json
  | [] => none
  | (k2, v) :: rest => if k = k2 then some v else lookupKey k rest

/-- Whether a key occurs in a parsed JSON object (Python `k in d` on a dict). -/
def keysContain (k : String) : List (String × Json) → Bool
  | [] => false
  | (k2, _) :: rest => if k = k2 then true else keysContain k rest

/-- Does the character list start with the given pattern. -/
def startsWithChars : List Char → List Char → Bool
  | _, [] => true
  | [], _ :: _ => false
  | a :: as, b :: bs => a == b && startsWithChars as bs

/-- Substring test on character lists (Python `sub in s` for strings). -/
def containsChars (pat : List Char) : List Char → Bool
  | [] => startsWithChars [] pat
  | s@(_ :: t) => startsWithChars s pat || containsChars pat t

/-- Python membership `k in container` for a string key, as used at lines
73, 75 and 76.  On a dict it tests the keys; on a list it compares `k` with
each element by `==` (equal only to an equal string); on a string it is a
substring test; on other values it raises `TypeError`. -/
def pyContains (container : Json) (k : String) : Except String Bool :=
  match container with
  | .obj fields => .ok (keysContain k fields)
  | .arr elems =>
      .ok (elems.any (fun x => match x with | .str s => k == s | _ => false))
  | .str s => .ok (containsChars k.data s.data)
  | _ => .error "argument of type is not iterable"

/-- Python subscripting `container[k]` with a string key (lines 74, 76, 77).
On a dict it looks the key up (`KeyError` when absent); on lists and strings
a string index raises `TypeError`; other values are not subscriptable. -/
def pyIndexStr (container : Json) (k : String) : Except String Json :=
  match container with
  | .obj fields =>
      match lookupKey k fields with
      | some v => .ok v
      | none => .error ("KeyError: " ++ k)
  | .arr _ => .error "list indices must be integers or slices, not str"
  | .str _ => .error "string indices must be integers"
  | _ => .error "object is not subscriptable"

/-- Python subscripting `container[i]` with a numeric index (lines 74, 76).
On a list it selects the element (`IndexError` out of range); on a string it
selects a one-character string; a dict raises `KeyError` for a number key
(parsed JSON objects have string keys); other values are not subscriptable. -/
def pyIndexNat (container : Json) (i : Nat) : Except String Json :=
  match container with
  | .arr elems =>
      match elems.get? i with
      | some v => .ok v
      | none => .error "list index out of range"
  | .str s =>
      match s.data.get? i with
      | some c => .ok (.str (String.mk [c]))
      | none => .error "string index out of range"
  | .obj _ => .error ("KeyError: " ++ toString i)
  | _ => .error "object is not subscriptable"

/-- Python `len` (lines 73, 75): defined on lists, strings and dicts,
`TypeError` otherwise. -/
def pyLen : Json → Except String Nat
  | .arr elems => .ok elems.length
  | .str s => .ok s.length
  | .obj fields => .ok fields.length
  | _ => .error "object has no len"

mutual

/-- Python `repr`/`str` of a parsed JSON value, interpolated by the f-string
diagnostic at line 83. -/
def pyRepr : Json → String
  | .null => "None"
  | .bool true => "True"
  | .bool false => "False"
  | .num n => toString n
  | .str s => "\x27" ++ s ++ "\x27"
  | .arr elems => "[" ++ pyReprElems elems ++ "]"
  | .obj fields => "\x7b" ++ pyReprFields fields ++ "\x7d"

/-- Comma-separated `repr` of list elements. -/
def pyReprElems : List Json → String
  | [] => ""
  | [x] => pyRepr x
  | x :: xs => pyRepr x ++ ", " ++ pyReprElems xs

/-- Comma-separated `repr` of dict entries. -/
def pyReprFields : List (String × Json) → String
  | [] => ""
  | [(k, v)] => "\x27" ++ k ++ "\x27: " ++ pyRepr v
  | (k, v) :: kvs => "\x27" ++ k ++ "\x27: " ++ pyRepr v ++ ", " ++ pyReprFields kvs

end

/-- One chat message as stored in `st.session_state.messages`: a dict
`\x7b"role": r, "parts": ps\x7d` where each part is a JSON value (every part
the program builds is a dict `\x7b"text": v\x7d`). -/
structure Message where
  role : String
  parts : List Json

/-- One entry of the wire payload `contents` array (lines 50-54). -/
structure WireEntry where
  role : String
  parts : List Json

/-- The wire request body (lines 60-62): `\x7b"contents": ...\x7d`. -/
structure Payload where
  contents : List WireEntry

/-- The body of an HTTP response: either bytes that are not valid JSON or a
parsed JSON value.  On invalid bytes `response.json()` raises a JSON decode
error carrying the given message; the class of that exception depends on the
version of the unpinned `requests` dependency: since requests 2.27 it is
`requests.exceptions.JSONDecodeError`, which is also a subclass of
`RequestException` (flag true); before 2.27 it is a plain
`json.JSONDecodeError`, which is not (flag false). -/
inductive Body where
  | invalid (isReqExcSubclass : Bool) (emsg : String)
  | json (v : Json)

/-- Outcome of `requests.post` (line 66): a transport failure raising
`requests.exceptions.RequestException` with the given message, or an HTTP
response with a status code, a reason phrase and a body. -/
inductive PostResult where
  | failure (msg : String)
  | response (statusCode : Nat) (reason : String) (body : Body)

/-- Observable result of one run of the prompt-handler block: the updated
message list, the `st.error` diagnostics emitted (in order), and the wire
request that was POSTed. -/
structure StepResult where
  messages : List Message
  errors : List String
  request : Payload

/-- Line 18: the API key is left empty (the hosting environment injects it). -/
def api_key : String := ""

/-- Line 57: the generation endpoint URL. -/
def gemini_api_url : String :=
  "https://generativelanguage.googleapis.com/v1beta/models/gemini-2.0-flash:generateContent?key="
    ++ api_key

/-- Semantics of `response.raise_for_status()` (line 67, from the `requests`
library): raises `requests.exceptions.HTTPError` with a client/server error
message exactly for status codes 400-599, before any body parsing. -/
def raiseForStatus (url : String) (statusCode : Nat) (reason : String) : Option String :=
  if 400 ≤ statusCode ∧ statusCode < 500 then
    some (toString statusCode ++ " Client Error: " ++ reason ++ " for url: " ++ url)
  else if 500 ≤ statusCode ∧ statusCode < 600 then
    some (toString statusCode ++ " Server Error: " ++ reason ++ " for url: " ++ url)
  else
    none

/-- Lines 50-54: build the wire history by mapping every stored message,
translating the role (`assistant` becomes `model`, everything else is passed
through) and passing `parts` through unchanged. -/
def chatHistoryForGemini : List Message → List WireEntry
  | [] => []
  | msg :: rest =>
      { role := if msg.role = "assistant" then "model" else msg.role,
        parts := msg.parts } :: chatHistoryForGemini rest

/-- Line 72: the default assistant text used when the response shape is
unexpected. -/
def placeholderText : String := "Sorry, I could not get a response."

/-- Lines 82-83: the else branch of the outer shape check; the diagnostic
interpolates the parsed response. -/
def unexpectedStructure (result : Json) : Except String (Json × List String) :=
  .ok (.str placeholderText,
       ["Unexpected Gemini API response structure: " ++ pyRepr result])

/-- Lines 80-81: the else branch of the inner shape check. -/
def contentPartsMissing : Except String (Json × List String) :=
  .ok (.str placeholderText, ["Gemini API response content or parts missing."])

/-- Lines 75-81: the checks on `candidates[0]`.  Each Python subexpression is
evaluated once (the source re-evaluates some pure subscript chains; the values
are identical).  Returns the final `assistant_response_content` together with
the `st.error` diagnostics, or the exception text when a Python operation
raises (caught by `except Exception` at line 97). -/
def extractFromCandidate (candidate : Json) : Except String (Json × List String) :=
  match pyContains candidate "content" with
  | .error e => .error e
  | .ok false => contentPartsMissing
  | .ok true =>
    match pyIndexStr candidate "content" with
    | .error e => .error e
    | .ok content =>
      match pyContains content "parts" with
      | .error e => .error e
      | .ok false => contentPartsMissing
      | .ok true =>
        match pyIndexStr content "parts" with
        | .error e => .error e
        | .ok parts =>
          match pyLen parts with
          | .error e => .error e
          | .ok np =>
            if 0 < np then
              match pyIndexNat parts 0 with
              | .error e => .error e
              | .ok part0 =>
                match pyContains part0 "text" with
                | .error e => .error e
                | .ok true =>
                  match pyIndexStr part0 "text" with
                  | .error e => .error e
                  | .ok t => .ok (t, [])
                | .ok false =>
                  .ok (.str placeholderText,
                       ["Gemini API response part missing \x27text\x27."])
            else contentPartsMissing

/-- Lines 72-83: compute `assistant_response_content` and the `st.error`
diagnostics from the parsed response, mirroring the short-circuit evaluation
of `result and "candidates" in result and len(result["candidates"]) > 0`. -/
def extractContent (result : Json) : Except String (Json × List String) :=
  if pyTruthy result then
    match pyContains result "candidates" with
    | .error e => .error e
    | .ok false => unexpectedStructure result
    | .ok true =>
      match pyIndexStr result "candidates" with
      | .error e => .error e
      | .ok cands =>
        match pyLen cands with
        | .error e => .error e
        | .ok n =>
          if 0 < n then
            match pyIndexNat cands 0 with
            | .error e => .error e
            | .ok candidate => extractFromCandidate candidate
          else unexpectedStructure result
  else unexpectedStructure result

/-- Line 43: the user message `\x7b"role": "user", "parts": [\x7b"text": prompt\x7d]\x7d`. -/
def userTurnOf (prompt : String) : Message :=
  { role := "user", parts := [Json.obj [("text", Json.str prompt)]] }

/-- Lines 86, 93, 96, 99: every reply message the handler appends has role
`"model"` and a single part `\x7b"text": v\x7d`. -/
def modelTurnOf (v : Json) : Message :=
  { role := "model", parts := [Json.obj [("text", v)]] }

/-- Lines 40-99: the prompt-handler block, run once per user prompt.  The
environment is abstracted as `net`, mapping the POSTed payload to the outcome
of the network call.  The `try`/`except` dispatch follows the source, taking
the first matching clause as Python does: `requests.exceptions.RequestException`
at line 91 catches transport failures, `raise_for_status`, and — whenever the
installed requests version makes the decode exception a `RequestException`
subclass (requests 2.27 and later) — the `response.json()` failure as well;
`except json.JSONDecodeError` at line 94 catches a decode failure only when it
is not a `RequestException` subclass (requests before 2.27); any other
exception (raised by the shape-processing code) lands at line 97. -/
def handleUserTurn (messages : List Message) (prompt : String)
    (net : Payload → PostResult) : StepResult :=
  let messages := messages ++ [userTurnOf prompt]
  let payload : Payload := { contents := chatHistoryForGemini messages }
  match net payload with
  | .failure emsg =>
      { messages := messages
          ++ [modelTurnOf (.str ("Error: Could not connect to the API. " ++ emsg))],
        errors := ["Error communicating with Gemini API: " ++ emsg],
        request := payload }
  | .response statusCode reason body =>
      match raiseForStatus gemini_api_url statusCode reason with
      | some emsg =>
          { messages := messages
              ++ [modelTurnOf (.str ("Error: Could not connect to the API. " ++ emsg))],
            errors := ["Error communicating with Gemini API: " ++ emsg],
            request := payload }
      | none =>
          match body with
          | .invalid isReqExcSubclass emsg =>
              if isReqExcSubclass then
                { messages := messages
                    ++ [modelTurnOf (.str ("Error: Could not connect to the API. " ++ emsg))],
                  errors := ["Error communicating with Gemini API: " ++ emsg],
                  request := payload }
              else
                { messages := messages
                    ++ [modelTurnOf (.str "Error: Failed to parse API response.")],
                  errors := ["Failed to parse JSON response from Gemini API."],
                  request := payload }
          | .json result =>
              match extractContent result with
              | .ok (content, diags) =>
                  { messages := messages ++ [modelTurnOf content],
                    errors := diags,
                    request := payload }
              | .error emsg =>
                  { messages := messages
                      ++ [modelTurnOf (.str ("An unexpected error occurred: " ++ emsg))],
                    errors := ["An unexpected error occurred: " ++ emsg],
                    request := payload }

/-- Run the prompt handler once per utterance, threading the message list. -/
def runSession (net : Payload → PostResult) : List String → List Message → List Message
  | [], messages => messages
  | prompt :: rest, messages =>
      runSession net rest (handleUserTurn messages prompt net).messages

/-- Line 29: role adaptation at display time (`model` is shown as `assistant`). -/
def displayRole (m : Message) : String :=
  if m.role = "model" then "assistant" else m.role

/-- Lines 32-35: the display-time guard
`message["parts"] and len(message["parts"]) > 0 and "text" in message["parts"][0]`.
Both list conditions reduce to non-emptiness; the third is Python membership
on the first part.  `.ok false` means the fallback text
`*(Unable to display message content)*` is rendered. -/
def displayGuard (m : Message) : Except String Bool :=
  match m.parts with
  | [] => .ok false
  | part0 :: _ => pyContains part0 "text"

/-- The shape defects enumerated by the spec for a JSON-object response body:
no `candidates` key, empty `candidates`, `candidates[0].content` absent,
`candidates[0].content.parts` absent or empty, or `parts[0].text` absent. -/
def ShapeDefect (bkvs : List (String × Json)) : Prop :=
  lookupKey "candidates" bkvs = none
  ∨ lookupKey "candidates" bkvs = some (Json.arr [])
  ∨ ∃ ckvs cs, lookupKey "candidates" bkvs = some (Json.arr (Json.obj ckvs :: cs))
      ∧ (lookupKey "content" ckvs = none
         ∨ ∃ conkvs, lookupKey "content" ckvs = some (Json.obj conkvs)
             ∧ (lookupKey "parts" conkvs = none
                ∨ lookupKey "parts" conkvs = some (Json.arr [])
                ∨ ∃ pkvs ps,
                    lookupKey "parts" conkvs = some (Json.arr (Json.obj pkvs :: ps))
                      ∧ lookupKey "text" pkvs = none))

/-- An environment that always answers with a success status and a body from
which the handler extracts a string reply with no diagnostics (a valid
single-candidate response). -/
def GoodNet (net : Payload → PostResult) : Prop :=
  ∀ p, ∃ s r body t, net p = PostResult.response s r (Body.json body)
    ∧ s < 400 ∧ extractContent body = .ok (Json.str t, [])

/-- A minimal valid single-candidate response body. -/
def goodBody : Json :=
  Json.obj [("candidates", Json.arr
    [Json.obj [("content", Json.obj
      [("parts", Json.arr [Json.obj [("text", Json.str "hello")]])])]])]

/-- An environment that always returns `goodBody` with status 200. -/
def netW : Payload → PostResult :=
  fun _ => PostResult.response 200 "OK" (Body.json goodBody)

/-- A valid-shape response body whose `text` field is the JSON number 5
rather than a string. -/
def badBody : Json :=
  Json.obj [("candidates", Json.arr
    [Json.obj [("content", Json.obj
      [("parts", Json.arr [Json.obj [("text", Json.num 5)]])])]])]

/-- An environment that always returns `badBody` with status 200. -/
def netBad : Payload → PostResult :=
  fun _ => PostResult.response 200 "OK" (Body.json badBody)

/-- A valid single-candidate response carrying extra fields at every level
(a second candidate, a second part, metadata keys); only
`candidates[0].content.parts[0].text` should matter. -/
def richBodyKvs : List (String × Json) :=
  [("candidates", Json.arr
     [Json.obj
        [("content", Json.obj
           [("role", Json.str "model"),
            ("parts", Json.arr
              [Json.obj [("text", Json.str "hello"), ("thought", Json.bool false)],
               Json.null])]),
         ("finishReason", Json.str "STOP")],
      Json.str "spare"]),
   ("modelVersion", Json.str "gemini-2.0-flash"),
   ("usageMetadata", Json.num 3)]

theorem lookupKey_ne_nil {k : String} {kvs : List (String × Json)} {v : Json}
    (h : lookupKey k kvs = some v) : kvs ≠ [] := by
  intro hnil
  subst hnil
  simp [lookupKey] at h

theorem keysContain_of_lookup {k : String} {kvs : List (String × Json)} {v : Json}
    (h : lookupKey k kvs = some v) : keysContain k kvs = true := by
  induction kvs with
  | nil => simp [lookupKey] at h
  | cons p rest ih =>
    obtain ⟨k2, v2⟩ := p
    by_cases hk : k = k2
    · simp [keysContain, hk]
    · simp only [lookupKey, if_neg hk] at h
      simp only [keysContain, if_neg hk]
      exact ih h

theorem keysContain_of_lookup_none {k : String} {kvs : List (String × Json)}
    (h : lookupKey k kvs = none) : keysContain k kvs = false := by
  induction kvs with
  | nil => rfl
  | cons p rest ih =>
    obtain ⟨k2, v2⟩ := p
    by_cases hk : k = k2
    · simp [lookupKey, hk] at h
    · simp only [lookupKey, if_neg hk] at h
      simp only [keysContain, if_neg hk]
      exact ih h

theorem pyTruthy_obj_of_ne_nil {kvs : List (String × Json)} (h : kvs ≠ []) :
    pyTruthy (Json.obj kvs) = true := by
  cases kvs with
  | nil => exact absurd rfl h
  | cons p rest => rfl

theorem get?_append_length {α : Type} (l₁ l₂ : List α) :
    (l₁ ++ l₂).get? l₁.length = l₂.get? 0 := by
  induction l₁ with
  | nil => rfl
  | cons a t ih => simp only [List.cons_append, List.length_cons, List.get?_cons_succ]; exact ih

theorem take_append_length {α : Type} (l₁ l₂ : List α) :
    (l₁ ++ l₂).take l₁.length = l₁ := by
  induction l₁ with
  | nil => rfl
  | cons a t ih => simp [ih]

theorem raiseForStatus_eq_none (u : String) (s : Nat) (r : String) (h : s < 400) :
    raiseForStatus u s r = none := by
  unfold raiseForStatus
  rw [if_neg (by omega), if_neg (by omega)]

theorem handleUserTurn_shape (msgs : List Message) (prompt : String)
    (net : Payload → PostResult) :
    ∃ t : Json, (handleUserTurn msgs prompt net).messages
      = msgs ++ [userTurnOf prompt, modelTurnOf t] := by
  simp only [handleUserTurn]
  cases hnet : net { contents := chatHistoryForGemini (msgs ++ [userTurnOf prompt]) } with
  | failure emsg =>
    exact ⟨Json.str ("Error: Could not connect to the API. " ++ emsg), by simp [hnet]⟩
  | response s r body =>
    cases hrs : raiseForStatus gemini_api_url s r with
    | some emsg =>
      exact ⟨Json.str ("Error: Could not connect to the API. " ++ emsg), by simp [hnet, hrs]⟩
    | none =>
      cases body with
      | invalid isReqExcSubclass emsg =>
        cases isReqExcSubclass with
        | true =>
          exact ⟨Json.str ("Error: Could not connect to the API. " ++ emsg),
            by simp [hnet, hrs]⟩
        | false =>
          exact ⟨Json.str "Error: Failed to parse API response.", by simp [hnet, hrs]⟩
      | json result =>
        cases hex : extractContent result with
        | error emsg =>
          exact ⟨Json.str ("An unexpected error occurred: " ++ emsg), by simp [hnet, hrs, hex]⟩
        | ok pair =>
          obtain ⟨content, diags⟩ := pair
          exact ⟨content, by simp [hnet, hrs, hex]⟩

theorem handleUserTurn_request (msgs : List Message) (prompt : String)
    (net : Payload → PostResult) :
    (handleUserTurn msgs prompt net).request
      = { contents := chatHistoryForGemini (msgs ++ [userTurnOf prompt]) } := by
  simp only [handleUserTurn]
  cases hnet : net { contents := chatHistoryForGemini (msgs ++ [userTurnOf prompt]) } with
  | failure emsg => simp [hnet]
  | response s r body =>
    cases hrs : raiseForStatus gemini_api_url s r with
    | some emsg => simp [hnet, hrs]
    | none =>
      cases body with
      | invalid isReqExcSubclass emsg => cases isReqExcSubclass <;> simp [hnet, hrs]
      | json result =>
        cases hex : extractContent result with
        | error emsg => simp [hnet, hrs, hex]
        | ok pair =>
          obtain ⟨content, diags⟩ := pair
          simp [hnet, hrs, hex]

theorem handleUserTurn_json_ok (msgs : List Message) (prompt : String)
    (net : Payload → PostResult) (s : Nat) (r : String) (body : Json)
    (t : Json) (diags : List String)
    (hnet : net { contents := chatHistoryForGemini (msgs ++ [userTurnOf prompt]) }
      = PostResult.response s r (Body.json body))
    (hrs : raiseForStatus gemini_api_url s r = none)
    (hex : extractContent body = .ok (t, diags)) :
    handleUserTurn msgs prompt net
      = { messages := msgs ++ [userTurnOf prompt, modelTurnOf t],
          errors := diags,
          request := { contents := chatHistoryForGemini (msgs ++ [userTurnOf prompt]) } } := by
  simp [handleUserTurn, hnet, hrs, hex]

theorem extractContent_success
    {bkvs ckvs conkvs pkvs : List (String × Json)} {cs ps : List Json} {t : Json}
    (h1 : lookupKey "candidates" bkvs = some (Json.arr (Json.obj ckvs :: cs)))
    (h2 : lookupKey "content" ckvs = some (Json.obj conkvs))
    (h3 : lookupKey "parts" conkvs = some (Json.arr (Json.obj pkvs :: ps)))
    (h4 : lookupKey "text" pkvs = some t) :
    extractContent (Json.obj bkvs) = .ok (t, []) := by
  have hb := pyTruthy_obj_of_ne_nil (lookupKey_ne_nil h1)
  have hc1 := keysContain_of_lookup h1
  have hc2 := keysContain_of_lookup h2
  have hc3 := keysContain_of_lookup h3
  have hc4 := keysContain_of_lookup h4
  simp [extractContent, extractFromCandidate, pyContains, pyIndexStr, pyIndexNat, pyLen,
    hb, hc1, hc2, hc3, hc4, h1, h2, h3, h4]

theorem extractContent_defect {bkvs : List (String × Json)} (hd : ShapeDefect bkvs) :
    ∃ d, extractContent (Json.obj bkvs) = .ok (Json.str placeholderText, [d]) := by
  rcases hd with h | h | ⟨ckvs, cs, h1, hc⟩
  · by_cases hb : bkvs = []
    · subst hb
      exact ⟨"Unexpected Gemini API response structure: " ++ pyRepr (Json.obj []),
        by simp [extractContent, pyTruthy, unexpectedStructure]⟩
    · have ht := pyTruthy_obj_of_ne_nil hb
      have hk := keysContain_of_lookup_none h
      exact ⟨"Unexpected Gemini API response structure: " ++ pyRepr (Json.obj bkvs),
        by simp [extractContent, pyContains, ht, hk, unexpectedStructure]⟩
  · have ht := pyTruthy_obj_of_ne_nil (lookupKey_ne_nil h)
    have hk := keysContain_of_lookup h
    exact ⟨"Unexpected Gemini API response structure: " ++ pyRepr (Json.obj bkvs),
      by simp [extractContent, pyContains, pyIndexStr, pyLen, ht, hk, h, unexpectedStructure]⟩
  · have ht := pyTruthy_obj_of_ne_nil (lookupKey_ne_nil h1)
    have hk := keysContain_of_lookup h1
    rcases hc with h2 | ⟨conkvs, h2, hp⟩
    · have hk2 := keysContain_of_lookup_none h2
      exact ⟨"Gemini API response content or parts missing.",
        by simp [extractContent, extractFromCandidate, pyContains, pyIndexStr, pyIndexNat,
          pyLen, ht, hk, h1, hk2, contentPartsMissing]⟩
    · have hk2 := keysContain_of_lookup h2
      rcases hp with h3 | h3 | ⟨pkvs, ps, h3, h4⟩
      · have hk3 := keysContain_of_lookup_none h3
        exact ⟨"Gemini API response content or parts missing.",
          by simp [extractContent, extractFromCandidate, pyContains, pyIndexStr, pyIndexNat,
            pyLen, ht, hk, h1, hk2, h2, hk3, contentPartsMissing]⟩
      · have hk3 := keysContain_of_lookup h3
        exact ⟨"Gemini API response content or parts missing.",
          by simp [extractContent, extractFromCandidate, pyContains, pyIndexStr, pyIndexNat,
            pyLen, ht, hk, h1, hk2, h2, hk3, h3, contentPartsMissing]⟩
      · have hk3 := keysContain_of_lookup h3
        have hk4 := keysContain_of_lookup_none h4
        exact ⟨"Gemini API response part missing \x27text\x27.",
          by simp [extractContent, extractFromCandidate, pyContains, pyIndexStr, pyIndexNat,
            pyLen, ht, hk, h1, hk2, h2, hk3, h3, hk4]⟩

theorem runSession_shape (net : Payload → PostResult) (h : GoodNet net) :
    ∀ (prompts : List String) (msgs : List Message),
      ∃ tail, runSession net prompts msgs = msgs ++ tail
        ∧ tail.length = 2 * prompts.length
        ∧ ∀ i p, prompts.get? i = some p →
            tail.get? (2 * i) = some (userTurnOf p)
            ∧ ∃ t, tail.get? (2 * i + 1) = some (modelTurnOf (Json.str t)) := by
  intro prompts
  induction prompts with
  | nil =>
    intro msgs
    refine ⟨[], by simp [runSession], rfl, ?_⟩
    intro i p hp
    simp at hp
  | cons q rest ih =>
    intro msgs
    obtain ⟨s, r, body, t, hnet, hs, hex⟩ :=
      h { contents := chatHistoryForGemini (msgs ++ [userTurnOf q]) }
    have hstep := handleUserTurn_json_ok msgs q net s r body (Json.str t) [] hnet
      (raiseForStatus_eq_none gemini_api_url s r hs) hex
    obtain ⟨tail, htail, hlen, hidx⟩ :=
      ih (msgs ++ [userTurnOf q, modelTurnOf (Json.str t)])
    refine ⟨userTurnOf q :: modelTurnOf (Json.str t) :: tail, ?_, ?_, ?_⟩
    · show runSession net (q :: rest) msgs = _
      simp only [runSession, hstep]
      rw [htail]
      simp
    · simp only [List.length_cons, List.length_cons, hlen]
      omega
    · intro i p hp
      cases i with
      | zero =>
        have hq : q = p := by simpa using hp
        subst hq
        exact ⟨rfl, t, rfl⟩
      | succ j =>
        have hp2 : rest.get? j = some p := by simpa using hp
        obtain ⟨hu, t2, hm⟩ := hidx j p hp2
        have e1 : 2 * (j + 1) = 2 * j + 1 + 1 := by ring
        have e2 : 2 * (j + 1) + 1 = 2 * j + 1 + 1 + 1 := by ring
        constructor
        · rw [e1]
          simp only [List.get?_cons_succ]
          exact hu
        · rw [e2]
          simp only [List.get?_cons_succ]
          exact ⟨t2, hm⟩

/-- Claim C1: every invocation of the prompt handler appends exactly two
turns to the message list — first exactly one user turn built from the
utterance, then exactly one reply turn (role model), on every control path. -/
theorem claim1_exactly_two_turns (msgs : List Message) (prompt : String)
    (net : Payload → PostResult) :
    ∃ reply : Message, reply.role = "model"
      ∧ (handleUserTurn msgs prompt net).messages
          = msgs ++ [userTurnOf prompt, reply] := by
  obtain ⟨t, ht⟩ := handleUserTurn_shape msgs prompt net
  exact ⟨modelTurnOf t, rfl, ht⟩

/-- Claim C5: the user turn is appended unconditionally before the network
call (it is part of the POSTed payload) and no path removes or modifies it or
the turns before it. -/
theorem claim5_user_turn_preserved (msgs : List Message) (prompt : String)
    (net : Payload → PostResult) :
    (handleUserTurn msgs prompt net).messages.take msgs.length = msgs
    ∧ (handleUserTurn msgs prompt net).messages.get? msgs.length
        = some (userTurnOf prompt)
    ∧ (handleUserTurn msgs prompt net).request
        = { contents := chatHistoryForGemini (msgs ++ [userTurnOf prompt]) } := by
  obtain ⟨t, ht⟩ := handleUserTurn_shape msgs prompt net
  refine ⟨?_, ?_, handleUserTurn_request msgs prompt net⟩
  · rw [ht]
    exact take_append_length msgs _
  · rw [ht]
    rw [get?_append_length msgs _]
    rfl

/-- Claim C6: the wire `contents` array has exactly one entry per stored turn,
in order, with role mapped assistant to model (any other role passed through)
and `parts` passed through unchanged. -/
theorem claim6_wire_request_roundtrip (msgs : List Message) :
    (chatHistoryForGemini msgs).length = msgs.length
    ∧ ∀ i : Nat, (chatHistoryForGemini msgs).get? i
        = (msgs.get? i).map (fun m =>
            { role := if m.role = "assistant" then "model" else m.role,
              parts := m.parts }) := by
  induction msgs with
  | nil => exact ⟨rfl, fun i => by cases i <;> rfl⟩
  | cons m rest ih =>
    refine ⟨by simp [chatHistoryForGemini, ih.1], fun i => ?_⟩
    cases i with
    | zero => rfl
    | succ j =>
      simp only [chatHistoryForGemini, List.get?_cons_succ]
      exact ih.2 j

/-- Claim C3 (code bug): at the failing input — a success HTTP status with a
non-JSON body — the routing depends on the class of the exception raised by
`response.json()`.  Under the unpinned requests dependency at any version
since 2.27 that exception is a `RequestException` subclass, so the first
matching clause at line 91 catches it and the handler appends the
transport-branch turn and diagnostic, not the decode placeholder the claim
and the dedicated handler at lines 94-96 prescribe; the decode branch is
reached only under the pre-2.27 classification. -/
theorem claim3_decode_error_misrouted :
    (handleUserTurn [] "hi" (fun _ => PostResult.response 200 "OK"
        (Body.invalid true "Expecting value: line 1 column 1 (char 0)"))).messages
      = [userTurnOf "hi",
         modelTurnOf (Json.str
           "Error: Could not connect to the API. Expecting value: line 1 column 1 (char 0)")]
    ∧ (handleUserTurn [] "hi" (fun _ => PostResult.response 200 "OK"
        (Body.invalid true "Expecting value: line 1 column 1 (char 0)"))).errors
      = ["Error communicating with Gemini API: Expecting value: line 1 column 1 (char 0)"]
    ∧ (handleUserTurn [] "hi" (fun _ => PostResult.response 200 "OK"
        (Body.invalid false "Expecting value: line 1 column 1 (char 0)"))).messages
      = [userTurnOf "hi", modelTurnOf (Json.str "Error: Failed to parse API response.")]
    ∧ (handleUserTurn [] "hi" (fun _ => PostResult.response 200 "OK"
        (Body.invalid false "Expecting value: line 1 column 1 (char 0)"))).errors
      = ["Failed to parse JSON response from Gemini API."] :=
  ⟨rfl, rfl, rfl, rfl⟩

/-- Claim C4: a status in the 4xx/5xx range raises before any body parsing and
is handled exactly like a transport failure: the reply text embeds the error
message after the connection-error prefix, the diagnostic is the transport one,
and the result does not depend on the body. -/
theorem claim4_http_error_like_transport (msgs : List Message) (prompt : String)
    (s : Nat) (r : String) (body : Body) (hs : 400 ≤ s ∧ s < 600) :
    ∃ emsg, raiseForStatus gemini_api_url s r = some emsg
      ∧ (handleUserTurn msgs prompt (fun _ => PostResult.response s r body)).messages
          = msgs ++ [userTurnOf prompt,
              modelTurnOf (Json.str ("Error: Could not connect to the API. " ++ emsg))]
      ∧ (handleUserTurn msgs prompt (fun _ => PostResult.response s r body)).errors
          = ["Error communicating with Gemini API: " ++ emsg] := by
  have hex : ∃ emsg, raiseForStatus gemini_api_url s r = some emsg := by
    unfold raiseForStatus
    by_cases h4 : 400 ≤ s ∧ s < 500
    · rw [if_pos h4]
      exact ⟨_, rfl⟩
    · rw [if_neg h4, if_pos (by omega)]
      exact ⟨_, rfl⟩
  obtain ⟨emsg, hrs⟩ := hex
  exact ⟨emsg, hrs, by simp [handleUserTurn, hrs], by simp [handleUserTurn, hrs]⟩

/-- Witness for claim C4 at a concrete input: HTTP 500. -/
theorem claim4_witness :
    ∃ emsg, raiseForStatus gemini_api_url 500 "Internal Server Error" = some emsg
      ∧ (handleUserTurn [] "hi"
            (fun _ => PostResult.response 500 "Internal Server Error"
              (Body.invalid true "ignored"))).messages
          = [userTurnOf "hi",
             modelTurnOf (Json.str ("Error: Could not connect to the API. " ++ emsg))]
      ∧ (handleUserTurn [] "hi"
            (fun _ => PostResult.response 500 "Internal Server Error"
              (Body.invalid true "ignored"))).errors
          = ["Error communicating with Gemini API: " ++ emsg] := by
  obtain ⟨emsg, h1, h2, h3⟩ := claim4_http_error_like_transport [] "hi" 500
    "Internal Server Error" (Body.invalid true "ignored") ⟨by omega, by omega⟩
  exact ⟨emsg, h1, by simpa using h2, h3⟩

/-- Claim C2: a well-formed JSON object body with any of the enumerated shape
defects (no candidates, empty candidates, content or parts absent, parts
empty, or text absent) is not fatal: the handler appends the fixed placeholder
reply and surfaces exactly one shape-specific diagnostic. -/
theorem claim2_shape_defect_placeholder (msgs : List Message) (prompt : String)
    (s : Nat) (r : String) (bkvs : List (String × Json))
    (hs : s < 400) (hd : ShapeDefect bkvs) :
    ∃ d,
      (handleUserTurn msgs prompt
          (fun _ => PostResult.response s r (Body.json (Json.obj bkvs)))).messages
        = msgs ++ [userTurnOf prompt,
            modelTurnOf (Json.str "Sorry, I could not get a response.")]
      ∧ (handleUserTurn msgs prompt
          (fun _ => PostResult.response s r (Body.json (Json.obj bkvs)))).errors
        = [d] := by
  obtain ⟨d, hex⟩ := extractContent_defect hd
  have h := handleUserTurn_json_ok msgs prompt
    (fun _ => PostResult.response s r (Body.json (Json.obj bkvs))) s r
    (Json.obj bkvs) (Json.str placeholderText) [d] rfl
    (raiseForStatus_eq_none gemini_api_url s r hs) hex
  exact ⟨d, by rw [h]; rfl, by rw [h]⟩


/-- Witness for claim C2 at the concrete input of the claim: a body equal to
the JSON object with an empty candidates array. -/
theorem claim2_witness :
    (200 : Nat) < 400
    ∧ ShapeDefect [("candidates", Json.arr [])]
    ∧ ∃ d,
      (handleUserTurn [] "hi"
          (fun _ => PostResult.response 200 "OK"
            (Body.json (Json.obj [("candidates", Json.arr [])])))).messages
        = [userTurnOf "hi",
           modelTurnOf (Json.str "Sorry, I could not get a response.")]
      ∧ (handleUserTurn [] "hi"
          (fun _ => PostResult.response 200 "OK"
            (Body.json (Json.obj [("candidates", Json.arr [])])))).errors
        = [d] := by
  have hd : ShapeDefect [("candidates", Json.arr [])] := Or.inr (Or.inl rfl)
  obtain ⟨d, h1, h2⟩ := claim2_shape_defect_placeholder [] "hi" 200 "OK"
    [("candidates", Json.arr [])] (by omega) hd
  exact ⟨by omega, hd, d, by simpa using h1, h2⟩

/-- Claim C8: for a valid-shape response, the handler appends exactly the
reply turn built from `candidates[0].content.parts[0].text`; the remaining
fields of the body (other keys, further candidates, further parts) do not
affect the appended turn, and no diagnostic is surfaced. -/
theorem claim8_success_extraction (msgs : List Message) (prompt : String)
    (s : Nat) (r : String)
    (bkvs ckvs conkvs pkvs : List (String × Json)) (cs ps : List Json) (t : Json)
    (hs : s < 400)
    (h1 : lookupKey "candidates" bkvs = some (Json.arr (Json.obj ckvs :: cs)))
    (h2 : lookupKey "content" ckvs = some (Json.obj conkvs))
    (h3 : lookupKey "parts" conkvs = some (Json.arr (Json.obj pkvs :: ps)))
    (h4 : lookupKey "text" pkvs = some t) :
    (handleUserTurn msgs prompt
        (fun _ => PostResult.response s r (Body.json (Json.obj bkvs)))).messages
      = msgs ++ [userTurnOf prompt, modelTurnOf t]
    ∧ (handleUserTurn msgs prompt
        (fun _ => PostResult.response s r (Body.json (Json.obj bkvs)))).errors
      = [] := by
  have hex := extractContent_success h1 h2 h3 h4
  have h := handleUserTurn_json_ok msgs prompt
    (fun _ => PostResult.response s r (Body.json (Json.obj bkvs))) s r
    (Json.obj bkvs) t [] rfl (raiseForStatus_eq_none gemini_api_url s r hs) hex
  exact ⟨by rw [h], by rw [h]⟩

/-- Witness for claim C8 at a concrete input: a response with extra fields at
every level still yields exactly the turn built from the first text. -/
theorem claim8_witness :
    (handleUserTurn [] "hi"
        (fun _ => PostResult.response 200 "OK" (Body.json (Json.obj richBodyKvs)))).messages
      = [userTurnOf "hi", modelTurnOf (Json.str "hello")]
    ∧ (handleUserTurn [] "hi"
        (fun _ => PostResult.response 200 "OK" (Body.json (Json.obj richBodyKvs)))).errors
      = [] := by
  have h := claim8_success_extraction [] "hi" 200 "OK" richBodyKvs _ _ _ _ _ _
    (by omega) rfl rfl rfl rfl
  exact ⟨by simpa using h.1, h.2⟩

/-- Claim C7: with an environment that always returns a valid single-candidate
response, a session of N utterances ends with exactly 2N turns, alternating
user (with the i-th utterance) then model reply, in call order. -/
theorem claim7_session_alternation (net : Payload → PostResult) (h : GoodNet net)
    (prompts : List String) :
    (runSession net prompts []).length = 2 * prompts.length
    ∧ ∀ i p, prompts.get? i = some p →
        (runSession net prompts []).get? (2 * i) = some (userTurnOf p)
        ∧ ∃ t, (runSession net prompts []).get? (2 * i + 1)
            = some (modelTurnOf (Json.str t)) := by
  obtain ⟨tail, ht, hlen, hidx⟩ := runSession_shape net h prompts []
  rw [ht]
  simp only [List.nil_append]
  exact ⟨hlen, hidx⟩

/-- Witness for claim C7 at a concrete input: two utterances against an
environment always answering with a valid single-candidate body. -/
theorem claim7_witness :
    (runSession netW ["hi", "there"] []).length = 2 * 2
    ∧ (runSession netW ["hi", "there"] []).get? 0 = some (userTurnOf "hi")
    ∧ (runSession netW ["hi", "there"] []).get? 2 = some (userTurnOf "there")
    ∧ (runSession netW ["hi", "there"] []).get? 1 = some (modelTurnOf (Json.str "hello"))
    ∧ (runSession netW ["hi", "there"] []).get? 3 = some (modelTurnOf (Json.str "hello")) := by
  have hg : GoodNet netW := fun p => ⟨200, "OK", goodBody, "hello", rfl, by omega, rfl⟩
  have h := claim7_session_alternation netW hg ["hi", "there"]
  refine ⟨h.1, ?_, ?_, rfl, rfl⟩
  · simpa using (h.2 0 "hi" rfl).1
  · simpa using (h.2 1 "there" rfl).1

/-- Counterexample to claim C9 as stated: after one successful exchange, the
second stored turn has role `model`, which is neither `user` nor `assistant`. -/
theorem claim9_counterexample :
    (handleUserTurn [] "hi" netW).messages.get? 1 = some (modelTurnOf (Json.str "hello"))
    ∧ (modelTurnOf (Json.str "hello")).role ≠ "user"
    ∧ (modelTurnOf (Json.str "hello")).role ≠ "assistant" :=
  ⟨rfl, by decide, by decide⟩

/-- Claim C9 (amended): every turn the handler stores has role `user` or
`model` (the store holds wire-format roles); `model` maps to `assistant` only
at display time, so the displayed role is always `user` or `assistant`. -/
theorem claim9_roles_user_or_model (msgs : List Message) (prompt : String)
    (net : Payload → PostResult)
    (h : ∀ m ∈ msgs, m.role = "user" ∨ m.role = "model") :
    ∀ m ∈ (handleUserTurn msgs prompt net).messages,
      (m.role = "user" ∨ m.role = "model")
      ∧ (displayRole m = "user" ∨ displayRole m = "assistant") := by
  obtain ⟨t, ht⟩ := handleUserTurn_shape msgs prompt net
  rw [ht]
  intro m hm
  rcases List.mem_append.mp hm with hm | hm
  · rcases h m hm with h1 | h1 <;> constructor <;> simp [displayRole, h1]
  · simp only [List.mem_cons, List.mem_singleton] at hm
    rcases hm with rfl | rfl | hm
    · exact ⟨Or.inl rfl, Or.inl rfl⟩
    · exact ⟨Or.inr rfl, Or.inr rfl⟩
    · cases hm

/-- Witness for the amended claim C9: starting from the empty list, every
stored role is `user` or `model` and every displayed role is `user` or
`assistant`. -/
theorem claim9_witness :
    ((handleUserTurn [] "hi" netW).messages.all
        (fun m => (m.role == "user" || m.role == "model")
          && (displayRole m == "user" || displayRole m == "assistant"))) = true := by
  have h := claim9_roles_user_or_model [] "hi" netW (by intro m hm; simp at hm)
  rw [List.all_eq_true]
  intro m hm
  obtain ⟨h1, h2⟩ := h m hm
  rcases h1 with e1 | e1 <;> rcases h2 with e2 | e2 <;> simp [e1, e2]

/-- Counterexample to claim C10 as stated: when the endpoint answers with a
valid shape whose text field is the JSON number 5, the appended reply turn
carries a non-string under the text key. -/
theorem claim10_counterexample :
    (handleUserTurn [] "hi" netBad).messages.get? 1
      = some { role := "model", parts := [Json.obj [("text", Json.num 5)]] }
    ∧ Json.isString (Json.num 5) = false :=
  ⟨rfl, rfl⟩

/-- Claim C10 (amended): every turn the program appends has `parts` equal to a
singleton list whose element is a dict containing the key text (with a JSON
value that need not be a string); consequently, on any list reachable through
the program appends alone, the display guard succeeds and the fallback
rendering is unreachable. -/
theorem claim10_parts_text_guard (msgs : List Message) (prompt : String)
    (net : Payload → PostResult)
    (h : ∀ m ∈ msgs, ∃ v, m.parts = [Json.obj [("text", v)]]) :
    ∀ m ∈ (handleUserTurn msgs prompt net).messages,
      (∃ v, m.parts = [Json.obj [("text", v)]]) ∧ displayGuard m = .ok true := by
  obtain ⟨t, ht⟩ := handleUserTurn_shape msgs prompt net
  rw [ht]
  intro m hm
  have hparts : ∃ v, m.parts = [Json.obj [("text", v)]] := by
    rcases List.mem_append.mp hm with hm | hm
    · exact h m hm
    · simp only [List.mem_cons, List.mem_singleton] at hm
      rcases hm with rfl | rfl | hm
      · exact ⟨Json.str prompt, rfl⟩
      · exact ⟨t, rfl⟩
      · cases hm
  obtain ⟨v, hv⟩ := hparts
  refine ⟨⟨v, hv⟩, ?_⟩
  simp [displayGuard, hv, pyContains, keysContain]

/-- Witness for the amended claim C10: starting from the empty list, the guard
accepts every stored message. -/
theorem claim10_witness :
    ((handleUserTurn [] "hi" netW).messages.all
        (fun m => match displayGuard m with | .ok true => true | _ => false)) = true := by
  have h := claim10_parts_text_guard [] "hi" netW (by intro m hm; simp at hm)
  rw [List.all_eq_true]
  intro m hm
  rw [(h m hm).2]

end GeminiChat
